import Mathlib

/-!
Shallow embedding of the `tds-virtual-ta` repository (files
`src/scraper.py` and `src/virtual_ta_main.py`) and proofs about it.

Conventions of the embedding:
* Python strings are Lean `String`s.  String primitives (`lower`, `strip`,
  slicing, `in`, `split`) are re-implemented over `List Char` so that
  every definition evaluates by kernel reduction: `s.lower()` is
  `pyLower`, `a in b` is `containsSub b a`, `s[:n]` is `pyTake n`,
  `s.strip()` is `pyStrip`.
* Python dicts with a fixed shape become structures whose optional keys
  are `Option` fields; `d.get(k, default)` is `Option.getD`.
* Outbound HTTP calls are modelled as an explicit environment: a function
  from the request parameters to the (already received) response, where a
  dedicated constructor stands for a non-200 status and another for a body
  whose JSON decoding raises.
* The OpenAI completion call is a function from the prompt to
  `Option String`: `none` models any exception raised by the call
  (timeout, auth failure, quota, network error), `some s` a successful
  response whose message content is `s`.
* `time.sleep` and `print` are side effects with no bearing on any claim
  and are dropped.
-/

/-! ## Python string primitives -/

/-- Python `s.lower()` (ASCII case folding, which is all the source uses). -/
def pyLower (s : String) : String :=
  String.mk (s.toList.map Char.toLower)

/-- Python `s[:n]`. -/
def pyTake (n : Nat) (s : String) : String :=
  String.mk (s.toList.take n)

/-- Python `s.strip()`. -/
def pyStrip (s : String) : String :=
  String.mk (((s.toList.dropWhile Char.isWhitespace).reverse.dropWhile
    Char.isWhitespace).reverse)

def leadMatches : List Char → List Char → Bool
  | [], _ => true
  | _ :: _, [] => false
  | a :: as, b :: bs => a == b && leadMatches as bs

def listTails : List Char → List (List Char)
  | [] => [[]]
  | a :: as => (a :: as) :: listTails as

/-- Python `pat in hay` on strings: substring containment. -/
def containsSub (hay pat : String) : Bool :=
  (listTails hay.toList).any (fun t => leadMatches pat.toList t)

/-- Split a character list at every occurrence of `c` (Python
`s.split("-")` for a one-character separator). -/
def splitOnChar (c : Char) : List Char → List (List Char)
  | [] => [[]]
  | x :: xs =>
    let r := splitOnChar c xs
    if x == c then [] :: r
    else
      match r with
      | h :: t => (x :: h) :: t
      | [] => [[x]]

/-! ## Date parsing

`datetime.strptime(s, "%Y-%m-%d")` on the first 10 characters of an
ISO-8601-like timestamp.  The parse succeeds on `YYYY-MM-DD` shaped
strings (strptime also accepts unpadded fields; each dash-separated
component must be all digits, with month in 1..12 and day valid for the
month).  A successful parse is encoded as `y*10000 + m*100 + d`, which
orders exactly like the corresponding `datetime` values. -/

def isLeapYear (y : Nat) : Bool :=
  (y % 4 == 0 && y % 100 != 0) || (y % 400 == 0)

def daysInMonth (y m : Nat) : Nat :=
  if m == 2 then (if isLeapYear y then 29 else 28)
  else if m == 4 || m == 6 || m == 9 || m == 11 then 30
  else 31

def digitsVal (cs : List Char) : Nat :=
  cs.foldl (fun acc c => acc * 10 + (c.toNat - 48)) 0

/-- Parse one dash-separated component: all digits, 1 to 4 of them. -/
def parseNatStrict (cs : List Char) : Option Nat :=
  if cs.length == 0 || cs.length > 4 then none
  else if cs.all Char.isDigit then some (digitsVal cs)
  else none

/-- Embeds `datetime.strptime(s, "%Y-%m-%d")`: `none` on `ValueError`,
`some (y*10000+m*100+d)` on success. -/
def parseDate (s : String) : Option Nat :=
  match splitOnChar '-' s.toList with
  | [ys, ms, ds] =>
    match parseNatStrict ys, parseNatStrict ms, parseNatStrict ds with
    | some y, some m, some d =>
      if 1 ≤ m && m ≤ 12 && 1 ≤ d && d ≤ daysInMonth y m
          && ms.length ≤ 2 && ds.length ≤ 2 then
        some (y * 10000 + m * 100 + d)
      else none
    | _, _, _ => none
  | _ => none

/-! ## HTML model (`clean_html`, src/scraper.py lines 111-122)

An HTML fragment is a forest of nodes; `BeautifulSoup(html, "html.parser")`
on a well-formed fragment yields the evident tree.  `soup(["code", "pre",
"blockquote"])` followed by `element.decompose()` removes every element
with one of those tags together with its contents; `soup.get_text()`
concatenates the remaining text nodes in document order. -/

/-- A forest of sibling HTML nodes: either exhausted, or a text node
followed by its siblings, or an element (with its children) followed by
its siblings.  (A first-order rendering of `List` of node trees.) -/
inductive HForest where
  | nil
  | textC (s : String) (rest : HForest)
  | elemC (tag : String) (children : HForest) (rest : HForest)

/-- Embeds `soup.get_text()`: concatenation of all text nodes in document order. -/
def getTextF : HForest → String
  | .nil => ""
  | .textC s ns => s ++ getTextF ns
  | .elemC _ cs ns => getTextF cs ++ getTextF ns

/-- Embeds `element.decompose()` applied to every element whose tag is in `bad`
(as found by `soup(bad)`): the element and its entire subtree vanish. -/
def removeBadF (bad : List String) : HForest → HForest
  | .nil => .nil
  | .textC s ns => .textC s (removeBadF bad ns)
  | .elemC tag cs ns =>
    if bad.contains tag then removeBadF bad ns
    else .elemC tag (removeBadF bad cs) (removeBadF bad ns)

/-- Text extraction that never looks inside an element whose tag is in
`bad`: the reference meaning of "the cleaned output excludes that
element's text entirely". -/
def getTextSkipF (bad : List String) : HForest → String
  | .nil => ""
  | .textC s ns => s ++ getTextSkipF bad ns
  | .elemC tag cs ns =>
    if bad.contains tag then getTextSkipF bad ns
    else getTextSkipF bad cs ++ getTextSkipF bad ns

/-! A minimal parser for well-formed fragments (tags without attributes),
used to evaluate `clean_html` on concrete inputs.  `html.parser` agrees
with it on such fragments. -/

inductive HToken where
  | tagOpen (tag : String)
  | tagClose (tag : String)
  | text (s : String)

def tokenizeAux : Nat → List Char → List HToken
  | 0, _ => []
  | _ + 1, [] => []
  | fuel + 1, '<' :: cs =>
    let tag := cs.takeWhile (· ≠ '>')
    let rest := (cs.dropWhile (· ≠ '>')).drop 1
    (match tag with
     | '/' :: t => HToken.tagClose (String.mk t)
     | t => HToken.tagOpen (String.mk t)) :: tokenizeAux fuel rest
  | fuel + 1, c :: cs =>
    HToken.text (String.mk (c :: cs.takeWhile (· ≠ '<'))) ::
      tokenizeAux fuel (cs.dropWhile (· ≠ '<'))

def tokenizeHtml (s : String) : List HToken :=
  tokenizeAux (s.length + 1) s.toList

def parseNodes : Nat → List HToken → (HForest × List HToken)
  | 0, ts => (.nil, ts)
  | _ + 1, [] => (.nil, [])
  | fuel + 1, .text s :: ts =>
    let (ns, r) := parseNodes fuel ts
    (.textC s ns, r)
  | _ + 1, .tagClose _ :: ts => (.nil, ts)
  | fuel + 1, .tagOpen tag :: ts =>
    let (cs, r) := parseNodes fuel ts
    let (ns, r2) := parseNodes fuel r
    (.elemC tag cs ns, r2)

def parseHtml (s : String) : HForest :=
  (parseNodes (tokenizeHtml s).length (tokenizeHtml s)).1

/-- Embeds `clean_html` (src/scraper.py): empty input yields `""`; otherwise
parse, decompose `code`/`pre`/`blockquote` elements, extract text, strip. -/
def clean_html (html_content : String) : String :=
  if html_content == "" then ""
  else pyStrip (getTextF (removeBadF ["code", "pre", "blockquote"]
    (parseHtml html_content)))

/-! ## Scraper (src/scraper.py, class DiscourseScraperTDS)

The scraper's outbound HTTP traffic is modelled by a `ScrapeEnv`: the
listing response for each page number and the detail response for each
topic id.  (`self.base_url` is the default
`https://discourse.onlinedegree.iitm.ac.in`.) -/

def base_url : String := "https://discourse.onlinedegree.iitm.ac.in"

structure Reply where
  content : String
  author : String
  created_at : String
deriving Repr, DecidableEq

structure ScrapedPost where
  id : Nat
  title : String
  url : String
  content : String
  created_at : String
  author : String
  replies : List Reply
deriving Repr, DecidableEq

/-- One entry of `post_stream.posts` in a topic-detail JSON body; each
key may be absent (the code reads them with `post.get(...)`). -/
structure RawPost where
  cooked : Option String := none
  username : Option String := none
  created_at : Option String := none
deriving Repr, DecidableEq

/-- Outcome of `self.session.get(f"{base}/t/{topic_id}.json")` followed by
`.json()`: a non-200 status, a body whose JSON decoding raises, or a
decoded body reduced to `data.get("title", "")` and
`data.get("post_stream", {}).get("posts", [])` (an absent key yields the
default, so absent keys are folded into the field values). -/
inductive DetailResp where
  | httpFail (status : Nat)
  | badJson
  | body (title : String) (posts : List RawPost)

def mkReply (p : RawPost) : Reply :=
  { content := clean_html (p.cooked.getD "")
    author := p.username.getD ""
    created_at := p.created_at.getD "" }

/-- Embeds `scrape_topic_details` (src/scraper.py lines 68-109).  Its `try`
covers the whole body; `.json()` raising is `badJson` and is caught,
returning `None` like the non-200 and empty-post-stream cases. -/
def scrape_topic_details (topic_id : Nat) (resp : DetailResp) : Option ScrapedPost :=
  match resp with
  | .httpFail _ => none
  | .badJson => none
  | .body title posts =>
    match posts with
    | [] => none
    | main_post :: laterPosts =>
      some
        { id := topic_id
          title := title
          url := base_url ++ "/t/" ++ toString topic_id
          content := clean_html (main_post.cooked.getD "")
          created_at := main_post.created_at.getD ""
          author := main_post.username.getD ""
          -- `posts[1:5]`: up to 4 replies
          replies := (laterPosts.take 4).map mkReply }

/-- One topic summary in a listing page body; the code reads
`topic["created_at"]` and `topic["id"]` with subscripts, so an absent key
raises `KeyError`. -/
structure TopicSummary where
  id : Option Nat := none
  created_at : Option String := none
deriving Repr, DecidableEq

/-- Outcome of the listing-page GET followed by `.json()`: non-200 status
(logged, `break`), a body whose JSON decoding raises (aborts the scrape),
or a decoded body reduced to
`data.get("topic_list", {}).get("topics", [])`. -/
inductive ListingResp where
  | httpFail (status : Nat)
  | badJson
  | body (topics : List TopicSummary)

structure ScrapeEnv where
  listing : Nat → ListingResp
  detail : Nat → DetailResp

structure ScrapeResult where
  posts : List ScrapedPost
  /-- The listing pages actually requested, in request order. -/
  pages : List Nat
deriving Repr, DecidableEq

/-- The `for topic in topics` loop body (src/scraper.py lines 47-57).
`none` models an uncaught exception — a missing or unparseable
`created_at`, or a missing `id` — which escapes to the outer handler and
aborts the whole scrape. -/
def processTopics (env : ScrapeEnv) (start_dt end_dt : Nat) :
    List TopicSummary → Option (List ScrapedPost)
  | [] => some []
  | topic :: rest =>
    match topic.created_at with
    | none => none
    | some ca =>
      match parseDate (pyTake 10 ca) with
      | none => none
      | some created_at =>
        if start_dt ≤ created_at && created_at ≤ end_dt then
          match topic.id with
          | none => none
          | some tid =>
            match scrape_topic_details tid (env.detail tid) with
            | some p => (processTopics env start_dt end_dt rest).map (p :: ·)
            | none => processTopics env start_dt end_dt rest
        else processTopics env start_dt end_dt rest

/-- The `while page < 10` loop; fuel is `10 - page`.  The first component
is `none` when an uncaught exception escapes to the outer handler; the
second records every listing page actually requested. -/
def scrapeGo (env : ScrapeEnv) (start_dt end_dt : Nat) :
    Nat → Nat → Option (List ScrapedPost) × List Nat
  | 0, _ => (some [], [])
  | fuel + 1, page =>
    match env.listing page with
    | .httpFail _ => (some [], [page])
    | .badJson => (none, [page])
    | .body topics =>
      if topics.isEmpty then (some [], [page])
      else
        match processTopics env start_dt end_dt topics with
        | none => (none, [page])
        | some here =>
          match scrapeGo env start_dt end_dt fuel (page + 1) with
          | (rest, pages) => (rest.map (here ++ ·), page :: pages)

/-- Embeds `scrape_discourse_posts` (src/scraper.py lines 17-66).  The outer
`try` catches every uncaught exception — including a `ValueError` from
parsing `start_date`/`end_date` — and returns `[]`. -/
def scrape_discourse_posts (env : ScrapeEnv) (start_date end_date : String) :
    ScrapeResult :=
  match parseDate start_date, parseDate end_date with
  | some start_dt, some end_dt =>
    match scrapeGo env start_dt end_dt 10 0 with
    | (some posts, pages) => { posts := posts, pages := pages }
    | (none, pages) => { posts := [], pages := pages }
  | _, _ => { posts := [], pages := [] }

/-! ## Service (src/virtual_ta_main.py) -/

structure LinkResponse where
  url : String
  text : String
deriving Repr, DecidableEq

structure AnswerResponse where
  answer : String
  links : List LinkResponse
deriving Repr, DecidableEq

/-- A knowledge-base entry (and so also a matched item): a dict whose
keys may be absent.  Course-content entries populate `topic`, `content`,
`source`; discourse entries populate `url`, `title`, `content`, `date`. -/
structure KBItem where
  topic : Option String := none
  title : Option String := none
  content : Option String := none
  source : Option String := none
  url : Option String := none
  date : Option String := none
deriving Repr, DecidableEq

/-- Embeds `TDS_KNOWLEDGE_BASE["course_content"]` (lines 43-59). -/
def TDS_KNOWLEDGE_BASE_course_content : List KBItem :=
  [ { topic := some "AI Models and APIs"
      content := some "For TDS assignments, you must use gpt-3.5-turbo-0125 model specifically, even if AI Proxy supports other models like gpt-4o-mini. Use OpenAI API directly when required."
      source := some "Course Guidelines" },
    { topic := some "Data Collection"
      content := some "Web scraping should be done ethically with proper rate limiting. Use libraries like requests, BeautifulSoup, and selenium when needed."
      source := some "Week 3 Materials" },
    { topic := some "API Development"
      content := some "FastAPI is recommended for building REST APIs. Ensure proper error handling and response formatting."
      source := some "Week 5 Materials" } ]

/-- Embeds `TDS_KNOWLEDGE_BASE["discourse_posts"]` (lines 60-73). -/
def TDS_KNOWLEDGE_BASE_discourse_posts : List KBItem :=
  [ { url := some "https://discourse.onlinedegree.iitm.ac.in/t/ga5-question-8-clarification/155939/4"
      title := some "GA5 Question 8 Clarification"
      content := some "Use the model that's mentioned in the question. For token counting, use the specified model's tokenizer."
      date := some "2025-04-10" },
    { url := some "https://discourse.onlinedegree.iitm.ac.in/t/api-best-practices/155940/2"
      title := some "API Best Practices"
      content := some "Always implement proper error handling and return appropriate HTTP status codes."
      date := some "2025-04-08" } ]

def courseQuestionKeywords : List String :=
  ["api", "model", "gpt", "openai", "scraping", "fastapi"]

def courseContentKeywords : List String :=
  ["api", "model", "gpt", "openai", "scraping", "fastapi"]

def discourseQuestionKeywords : List String :=
  ["question", "clarification", "api", "model"]

def discourseContentKeywords : List String :=
  ["model", "api", "token", "question"]

/-- Embeds `search_knowledge_base` (lines 89-106).  The code reads
`item["content"]` with a subscript; every static entry carries `content`,
so the `Option.getD ""` here never supplies its default on the actual
knowledge base. -/
def search_knowledge_base (question : String) : List KBItem :=
  let question_lower := pyLower question
  let courseMatches := TDS_KNOWLEDGE_BASE_course_content.filter (fun item =>
    courseQuestionKeywords.any (fun k => containsSub question_lower k) &&
    courseContentKeywords.any (fun k =>
      containsSub (pyLower (item.content.getD "")) k))
  let discourseMatches := TDS_KNOWLEDGE_BASE_discourse_posts.filter (fun post =>
    discourseQuestionKeywords.any (fun k => containsSub question_lower k) &&
    discourseContentKeywords.any (fun k =>
      containsSub (pyLower (post.content.getD "")) k))
  courseMatches ++ discourseMatches

/-- Outcome of `base64.b64decode` + `Image.open`: `error msg` models any
exception (invalid base64, unrecognized image format), `ok fmt w h` a
decoded image with `image.format = fmt` and `image.size = (w, h)`. -/
inductive ImageDecode where
  | error (msg : String)
  | ok (fmt : String) (w h : Nat)

/-- Embeds `process_image` (lines 76-87). -/
def process_image (decoded : ImageDecode) : String :=
  match decoded with
  | .ok fmt w h =>
    "Image processed: " ++ fmt ++ " format, size: (" ++ toString w ++ ", "
      ++ toString h ++ ")"
  | .error msg => "Error processing image: " ++ msg

def fallbackContentDefault : String :=
  "Please refer to course materials for detailed information."

/-- The fixed apology string (line 139). -/
def apologyAnswer : String :=
  "I apologize, but I'm having trouble accessing the course information right now. Please check the course materials or post your question on Discourse."

/-- The prompt f-string (lines 113-122); `if image_description` is Python
truthiness, so `some ""` contributes nothing. -/
def buildPrompt (question context : String) (image_description : Option String) :
    String :=
  "You are a Teaching Assistant for the Tools in Data Science (TDS) course at IIT Madras.\n        \nQuestion: " ++ question
    ++ "\n\nContext from course materials and discourse:\n" ++ context ++ "\n\n"
    ++ (match image_description with
        | some d => if d == "" then "" else "Image description: " ++ d
        | none => "")
    ++ "\n\nProvide a helpful, accurate answer based on the TDS course content. Be specific and practical."

/-- Embeds `generate_answer` (lines 108-139).  `llm` is the
`openai.ChatCompletion.create` call as a function of the user prompt:
`none` models any exception it raises, `some s` a response whose message
content is `s`. -/
def generate_answer (question : String) (relevant_items : List KBItem)
    (image_description : Option String) (llm : String → Option String) : String :=
  let context := String.intercalate "\n"
    (relevant_items.map (fun item => item.content.getD ""))
  let prompt := buildPrompt question context image_description
  match llm prompt with
  | some responseText => pyStrip responseText
  | none =>
    match relevant_items with
    | item :: _ =>
      "Based on course materials: " ++ item.content.getD fallbackContentDefault
    | [] => apologyAnswer

/-- The default link (lines 153-157). -/
def defaultLink : LinkResponse :=
  { url := "https://discourse.onlinedegree.iitm.ac.in/c/degree-programs/tools-in-data-science/123"
    text := "TDS Course Discourse Forum" }

/-- Embeds `get_relevant_links` (lines 141-159). -/
def get_relevant_links (relevant_items : List KBItem) : List LinkResponse :=
  let links := relevant_items.filterMap (fun item =>
    item.url.map (fun u =>
      { url := u
        text := item.title.getD (pyTake 100 (item.content.getD "")) }))
  let links2 := if links.isEmpty then [defaultLink] else links
  links2.take 3

/-- An inbound `POST /api/` body before pydantic validation. -/
structure RawRequest where
  question : Option String := none
  image : Option String := none

inductive ApiResult where
  | ok (response : AnswerResponse)
  /-- Pydantic rejects the body (HTTP 422): `question` field absent. -/
  | validationError
  /-- The handler's `except` branch (HTTP 500). -/
  | serverError (detail : String)
deriving Repr, DecidableEq

/-- Embeds `answer_question`, the `POST /api/` handler (lines 165-189), composed
with pydantic validation of `QuestionRequest` (lines 26-28): `question`
is a required string field — an absent `question` is rejected with 422,
and any string (including `""`) passes.  `if request.image:` is Python
truthiness, so an empty-string image is not processed.  Every operation
in the `try` block is total in this embedding — the failure modes of the
called functions are values they handle internally — so the `except`
branch (`serverError`) is never produced. -/
def answer_question (req : RawRequest) (decoded : ImageDecode)
    (llm : String → Option String) : ApiResult :=
  match req.question with
  | none => .validationError
  | some question =>
    let image_description : Option String :=
      match req.image with
      | some img => if img == "" then none else some (process_image decoded)
      | none => none
    let relevant_items := search_knowledge_base question
    let answer := generate_answer question relevant_items image_description llm
    let links := get_relevant_links relevant_items
    .ok { answer := answer, links := links }

/-! ## Concrete fixtures used to instantiate the theorems -/

/-- A scrape environment with one in-range topic on page 0 and an empty
page 1. -/
def c2Env : ScrapeEnv where
  listing := fun page =>
    if page == 0 then
      .body [{ id := some 7, created_at := some "2025-02-01T00:00:00.000Z" }]
    else .body []
  detail := fun _ =>
    .body "Welcome thread"
      [{ cooked := some "<p>hello</p>", username := some "alice",
         created_at := some "2025-02-01T00:00:00.000Z" }]

def c2Post : ScrapedPost :=
  { id := 7, title := "Welcome thread", url := base_url ++ "/t/7",
    content := "hello", created_at := "2025-02-01T00:00:00.000Z",
    author := "alice", replies := [] }

def c3BadTopic : TopicSummary :=
  { id := some 1, created_at := some "not-a-date-at-all" }

def c3GoodTopic : TopicSummary :=
  { id := some 2, created_at := some "2025-02-02T00:00:00.000Z" }

def c3Detail : DetailResp :=
  .body "Good topic"
    [{ cooked := some "<p>hi</p>", username := some "bob",
       created_at := some "2025-02-02T00:00:00.000Z" }]

/-- Page 0 lists a topic with a malformed `created_at` followed by a
well-formed in-range topic. -/
def c3Env : ScrapeEnv where
  listing := fun page =>
    if page == 0 then .body [c3BadTopic, c3GoodTopic] else .body []
  detail := fun _ => c3Detail

/-- The same environment with the malformed topic absent. -/
def c3EnvGoodOnly : ScrapeEnv where
  listing := fun page => if page == 0 then .body [c3GoodTopic] else .body []
  detail := fun _ => c3Detail

def c3GoodPost : ScrapedPost :=
  { id := 2, title := "Good topic", url := base_url ++ "/t/2",
    content := "hi", created_at := "2025-02-02T00:00:00.000Z",
    author := "bob", replies := [] }

/-- An environment whose every topic-detail fetch fails with HTTP 404. -/
def c3FailDetailEnv : ScrapeEnv where
  listing := fun page => if page == 0 then .body [c3GoodTopic] else .body []
  detail := fun _ => .httpFail 404

def c6RawPost (s : String) : RawPost :=
  { cooked := some s, username := some "u", created_at := some "2025-01-01" }

/-- A topic detail with 7 posts in its post stream. -/
def c6Detail : DetailResp :=
  .body "Busy topic"
    [c6RawPost "r0", c6RawPost "r1", c6RawPost "r2", c6RawPost "r3",
     c6RawPost "r4", c6RawPost "r5", c6RawPost "r6"]

def c6Reply (s : String) : Reply :=
  { content := s, author := "u", created_at := "2025-01-01" }

def c6Post : ScrapedPost :=
  { id := 5, title := "Busy topic", url := base_url ++ "/t/5",
    content := "r0", created_at := "2025-01-01", author := "u",
    replies := [c6Reply "r1", c6Reply "r2", c6Reply "r3", c6Reply "r4"] }

/-! ## Helper lemmas -/

theorem basedPrefix_ne_empty (s : String) :
    "Based on course materials: " ++ s ≠ "" := by
  intro h
  have h2 : ("Based on course materials: " ++ s).data = "".data := congrArg String.data h
  rw [String.data_append] at h2
  have h3 := List.append_eq_nil.mp h2
  exact absurd h3.1 (by decide)

theorem generate_answer_llm_fail (question : String) (relevant_items : List KBItem)
    (image_description : Option String) (llm : String → Option String)
    (hfail : ∀ p, llm p = none) :
    generate_answer question relevant_items image_description llm =
      match relevant_items with
      | [] => apologyAnswer
      | item :: _ =>
        "Based on course materials: " ++ item.content.getD fallbackContentDefault := by
  unfold generate_answer
  simp only [hfail]
  rcases relevant_items with _ | ⟨item, rest⟩ <;> rfl

theorem links_clamp_length (l : List LinkResponse) :
    1 ≤ ((if l.isEmpty then [defaultLink] else l).take 3).length ∧
    ((if l.isEmpty then [defaultLink] else l).take 3).length ≤ 3 := by
  rcases l with _ | ⟨a, as⟩
  · simp
  · rw [if_neg (by simp)]
    rw [List.length_take]
    simp only [List.length_cons]
    omega

theorem get_relevant_links_length (relevant_items : List KBItem) :
    1 ≤ (get_relevant_links relevant_items).length ∧
    (get_relevant_links relevant_items).length ≤ 3 :=
  links_clamp_length _

theorem links_clamp_of_ne_nil (l : List LinkResponse) (h : l ≠ []) :
    (if l.isEmpty then [defaultLink] else l).take 3 = l.take 3 := by
  rw [if_neg (by simp [List.isEmpty_iff, h])]

theorem links_clamp_of_nil (l : List LinkResponse) (h : l = []) :
    (if l.isEmpty then [defaultLink] else l).take 3 = [defaultLink] := by
  subst h; rfl

/-! ## Claims -/

/-- C4: for every question, matched-item list and optional image
description, when the external-model call fails `generate_answer` returns
the templated string embedding the first matched item's content (its
`content` key read with the in-code default) if at least one matched item
exists, and the fixed apology string if none does; in both cases the
result is non-empty. -/
theorem C4_generate_answer_never_raises (question : String)
    (relevant_items : List KBItem) (image_description : Option String)
    (llm : String → Option String) (hfail : ∀ p, llm p = none) :
    generate_answer question relevant_items image_description llm ≠ "" ∧
    (relevant_items = [] →
      generate_answer question relevant_items image_description llm = apologyAnswer) ∧
    (∀ item rest, relevant_items = item :: rest →
      generate_answer question relevant_items image_description llm =
        "Based on course materials: " ++ item.content.getD fallbackContentDefault) := by
  rw [generate_answer_llm_fail question relevant_items image_description llm hfail]
  rcases relevant_items with _ | ⟨item, rest⟩
  · refine ⟨by decide, fun _ => rfl, ?_⟩
    intro i r h
    exact absurd h (by simp)
  · refine ⟨basedPrefix_ne_empty _, ?_, ?_⟩
    · intro h
      exact absurd h (by simp)
    · intro i r h
      injection h with h1 h2
      subst h1
      rfl

theorem C4_generate_answer_never_raises_witness :
    generate_answer "q" [] none (fun _ => none) ≠ "" ∧
    generate_answer "q" [] none (fun _ => none) = apologyAnswer ∧
    generate_answer "q" [{ content := some "Hello" }] none (fun _ => none) =
      "Based on course materials: Hello" := by
  refine ⟨(C4_generate_answer_never_raises "q" [] none _ (fun _ => rfl)).1,
    (C4_generate_answer_never_raises "q" [] none _ (fun _ => rfl)).2.1 rfl, ?_⟩
  have h := (C4_generate_answer_never_raises "q" [{ content := some "Hello" }] none
    (fun _ => none) (fun _ => rfl)).2.2 { content := some "Hello" } [] rfl
  rw [h]; decide

/-- C5: `get_relevant_links` returns at most 3 link pairs; when no
matched item carries a `url` key it returns exactly the one default pair;
otherwise it returns one `{url, text}` pair per URL-bearing matched item
(in order, truncated to 3), with the item's title if present else the
first 100 characters of its content as text. -/
theorem C5_get_relevant_links_spec (relevant_items : List KBItem) :
    (get_relevant_links relevant_items).length ≤ 3 ∧
    ((∀ item ∈ relevant_items, item.url = none) →
      get_relevant_links relevant_items = [defaultLink]) ∧
    ((∃ item ∈ relevant_items, item.url ≠ none) →
      get_relevant_links relevant_items =
        (relevant_items.filterMap (fun item =>
          item.url.map (fun u =>
            { url := u
              text := item.title.getD (pyTake 100 (item.content.getD "")) }))).take 3) := by
  refine ⟨(get_relevant_links_length relevant_items).2, ?_, ?_⟩
  · intro hall
    have hnil : relevant_items.filterMap (fun item =>
        item.url.map (fun u =>
          ({ url := u
             text := item.title.getD (pyTake 100 (item.content.getD "")) } : LinkResponse))) = [] := by
      rw [List.filterMap_eq_nil_iff]
      intro item hmem
      rw [hall item hmem]
      rfl
    exact links_clamp_of_nil _ hnil
  · rintro ⟨item, hmem, hurl⟩
    have hne : relevant_items.filterMap (fun item =>
        item.url.map (fun u =>
          ({ url := u
             text := item.title.getD (pyTake 100 (item.content.getD "")) } : LinkResponse))) ≠ [] := by
      intro hnil
      rw [List.filterMap_eq_nil_iff] at hnil
      have := hnil item hmem
      rcases h : item.url with _ | u
      · exact hurl h
      · rw [h] at this; cases this
    exact links_clamp_of_ne_nil _ hne

theorem C5_get_relevant_links_spec_witness :
    ((∀ item ∈ ([{ topic := some "t", content := some "c" }] : List KBItem),
        item.url = none) ∧
      get_relevant_links [{ topic := some "t", content := some "c" }] = [defaultLink]) ∧
    ((∃ item ∈ TDS_KNOWLEDGE_BASE_discourse_posts, item.url ≠ none) ∧
      get_relevant_links TDS_KNOWLEDGE_BASE_discourse_posts =
        (TDS_KNOWLEDGE_BASE_discourse_posts.filterMap (fun item =>
          item.url.map (fun u =>
            { url := u
              text := item.title.getD (pyTake 100 (item.content.getD "")) }))).take 3) := by
  constructor
  · constructor
    · decide
    · exact (C5_get_relevant_links_spec _).2.1 (by decide)
  · constructor
    · decide
    · exact (C5_get_relevant_links_spec _).2.2 (by decide)

/-- C6: a `ScrapedPost` built by `scrape_topic_details` has at most 4
replies, drawn in order from post-stream positions 1 through 4 (position
0 being the topic body), even when the topic has more than 5 posts. -/
theorem C6_replies_at_most_four (topic_id : Nat) (resp : DetailResp)
    (p : ScrapedPost) (h : scrape_topic_details topic_id resp = some p) :
    p.replies.length ≤ 4 ∧
    ∀ title posts, resp = .body title posts →
      p.replies = ((posts.drop 1).take 4).map mkReply := by
  rcases resp with status | _ | ⟨title, posts⟩
  · cases h
  · cases h
  · rcases posts with _ | ⟨main_post, laterPosts⟩
    · cases h
    · simp only [scrape_topic_details, Option.some.injEq] at h
      subst h
      constructor
      · rw [List.length_map, List.length_take]
        omega
      · intro title2 posts2 heq
        cases heq
        rfl

theorem C6_replies_at_most_four_witness :
    scrape_topic_details 5 c6Detail = some c6Post ∧
    c6Post.replies.length ≤ 4 ∧
    (∀ title posts, c6Detail = .body title posts →
      c6Post.replies = ((posts.drop 1).take 4).map mkReply) :=
  ⟨by decide, C6_replies_at_most_four 5 c6Detail c6Post (by decide)⟩

/-- C7: `search_knowledge_base` is deterministic (two calls with the same
question against the static knowledge base give identical ordered
results), and its result is the matched course-content items followed by
the matched discourse items, each part a sublist (hence in source
collection order) of its source collection. -/
theorem C7_search_knowledge_base_ordered (question : String) :
    search_knowledge_base question = search_knowledge_base question ∧
    ∃ courseMatches discourseMatches,
      search_knowledge_base question = courseMatches ++ discourseMatches ∧
      courseMatches.Sublist TDS_KNOWLEDGE_BASE_course_content ∧
      discourseMatches.Sublist TDS_KNOWLEDGE_BASE_discourse_posts := by
  refine ⟨rfl,
    TDS_KNOWLEDGE_BASE_course_content.filter (fun item =>
      courseQuestionKeywords.any (fun k => containsSub (pyLower question) k) &&
      courseContentKeywords.any (fun k =>
        containsSub (pyLower (item.content.getD "")) k)),
    TDS_KNOWLEDGE_BASE_discourse_posts.filter (fun post =>
      discourseQuestionKeywords.any (fun k => containsSub (pyLower question) k) &&
      discourseContentKeywords.any (fun k =>
        containsSub (pyLower (post.content.getD "")) k)),
    rfl, List.filter_sublist _, List.filter_sublist _⟩

/-- C1 counterexample: the body `{"question": ""}` is not rejected — the
handler processes it and returns a normal 200 response (the apology
answer with the default link, the external call failing), not a
validation error. -/
theorem C1_counterexample :
    answer_question { question := some "", image := none } (.error "e")
        (fun _ => none) =
      .ok { answer := apologyAnswer, links := [defaultLink] } ∧
    answer_question { question := some "", image := none } (.error "e")
        (fun _ => none) ≠ .validationError := by
  constructor <;> decide

/-- C1 (amended): validation of `QuestionRequest` rejects a request whose
body lacks the `question` field, but a present-and-empty question string
passes validation and is processed like any other, returning a normal
response; a non-empty question is not a validated precondition. -/
theorem C1_empty_question_not_rejected (req : RawRequest)
    (decoded : ImageDecode) (llm : String → Option String) :
    (req.question = none → answer_question req decoded llm = .validationError) ∧
    (∀ q, req.question = some q → ∃ r, answer_question req decoded llm = .ok r) := by
  constructor
  · intro h
    unfold answer_question
    rw [h]
  · intro q h
    unfold answer_question
    rw [h]
    exact ⟨_, rfl⟩

theorem C1_empty_question_not_rejected_witness :
    answer_question { question := none, image := none } (.error "e")
        (fun _ => none) = .validationError ∧
    ∃ r, answer_question { question := some "", image := none } (.error "e")
        (fun _ => none) = .ok r :=
  ⟨(C1_empty_question_not_rejected { question := none, image := none }
      (.error "e") (fun _ => none)).1 rfl,
   (C1_empty_question_not_rejected { question := some "", image := none }
      (.error "e") (fun _ => none)).2 "" rfl⟩

/-- C9: whenever the question contains (case-insensitively) one of the
course-side trigger keywords, `search_knowledge_base` returns all three
course-content items (followed by whatever discourse items match): the
course-side match never discriminates between course items, since every
course item's content contains a content-side keyword. -/
theorem C9_course_items_all_matched (question : String)
    (h : courseQuestionKeywords.any (fun k =>
      containsSub (pyLower question) k) = true) :
    search_knowledge_base question =
      TDS_KNOWLEDGE_BASE_course_content ++
        TDS_KNOWLEDGE_BASE_discourse_posts.filter (fun post =>
          discourseQuestionKeywords.any (fun k =>
            containsSub (pyLower question) k) &&
          discourseContentKeywords.any (fun k =>
            containsSub (pyLower (post.content.getD "")) k)) := by
  have hC : TDS_KNOWLEDGE_BASE_course_content.filter (fun item =>
      courseQuestionKeywords.any (fun k => containsSub (pyLower question) k) &&
      courseContentKeywords.any (fun k =>
        containsSub (pyLower (item.content.getD "")) k)) =
      TDS_KNOWLEDGE_BASE_course_content := by
    rw [List.filter_eq_self]
    intro item hmem
    simp only [h, Bool.true_and]
    fin_cases hmem <;> decide
  show TDS_KNOWLEDGE_BASE_course_content.filter _ ++
      TDS_KNOWLEDGE_BASE_discourse_posts.filter _ = _
  rw [hC]

theorem C9_course_items_all_matched_witness :
    courseQuestionKeywords.any (fun k =>
      containsSub (pyLower "Which gpt model should we use?") k) = true ∧
    search_knowledge_base "Which gpt model should we use?" =
      TDS_KNOWLEDGE_BASE_course_content ++
        TDS_KNOWLEDGE_BASE_discourse_posts.filter (fun post =>
          discourseQuestionKeywords.any (fun k =>
            containsSub (pyLower "Which gpt model should we use?") k) &&
          discourseContentKeywords.any (fun k =>
            containsSub (pyLower (post.content.getD "")) k)) :=
  ⟨by decide, C9_course_items_all_matched _ (by decide)⟩

theorem generate_answer_llm_fail_ne_empty (question : String)
    (relevant_items : List KBItem) (image_description : Option String)
    (llm : String → Option String) (hfail : ∀ p, llm p = none) :
    generate_answer question relevant_items image_description llm ≠ "" := by
  rw [generate_answer_llm_fail question relevant_items image_description llm hfail]
  rcases relevant_items with _ | ⟨item, rest⟩
  · decide
  · exact basedPrefix_ne_empty _

/-- C10 counterexample: with a whitespace-only external-model response,
`.strip()` leaves an empty answer — the handler's response is not always
a non-empty answer. -/
theorem C10_counterexample :
    ∃ r, answer_question { question := some "hi", image := none } (.error "e")
        (fun _ => some " ") = .ok r ∧ r.answer = "" :=
  ⟨{ answer := "", links := [defaultLink] }, by decide, rfl⟩

/-- C10 (amended): for every well-typed `QuestionRequest`, the handler's
500 branch is unreachable — it always returns an `AnswerResponse` with 1
to 3 links, and the answer is non-empty whenever the external-model call
fails (the fallback strings); on external-model success the answer is the
trimmed response text, which can be empty when the model returns only
whitespace. -/
theorem C10_handler_500_unreachable (req : RawRequest) (q : String)
    (decoded : ImageDecode) (llm : String → Option String)
    (hq : req.question = some q) :
    (∀ d, answer_question req decoded llm ≠ .serverError d) ∧
    ∃ r, answer_question req decoded llm = .ok r ∧
      1 ≤ r.links.length ∧ r.links.length ≤ 3 ∧
      ((∀ p, llm p = none) → r.answer ≠ "") := by
  have hr : answer_question req decoded llm = .ok
      { answer := generate_answer q (search_knowledge_base q)
          (match req.image with
           | some img => if img == "" then none else some (process_image decoded)
           | none => none) llm
        links := get_relevant_links (search_knowledge_base q) } := by
    unfold answer_question
    rw [hq]
  constructor
  · intro d h
    rw [hr] at h
    cases h
  · exact ⟨_, hr, (get_relevant_links_length _).1, (get_relevant_links_length _).2,
      fun hfail => generate_answer_llm_fail_ne_empty _ _ _ _ hfail⟩

theorem C10_handler_500_unreachable_witness :
    ({ question := some "x", image := none } : RawRequest).question = some "x" ∧
    ((∀ d, answer_question { question := some "x", image := none } (.error "e")
        (fun _ => none) ≠ .serverError d) ∧
      ∃ r, answer_question { question := some "x", image := none } (.error "e")
          (fun _ => none) = .ok r ∧
        1 ≤ r.links.length ∧ r.links.length ≤ 3 ∧
        ((∀ p, (fun _ : String => (none : Option String)) p = none) → r.answer ≠ "")) :=
  ⟨rfl, C10_handler_500_unreachable { question := some "x", image := none } "x"
    (.error "e") (fun _ => none) rfl⟩

theorem scrapeGo_pages_length (env : ScrapeEnv) (sd ed : Nat) :
    ∀ fuel page, (scrapeGo env sd ed fuel page).2.length ≤ fuel := by
  intro fuel
  induction fuel with
  | zero => intro page; simp [scrapeGo]
  | succ n ih =>
    intro page
    unfold scrapeGo
    split
    · simp
    · simp
    · split
      · simp
      · split
        · simp
        · cases hg : scrapeGo env sd ed n (page + 1) with
          | mk rest pages =>
            have hlen := ih (page + 1)
            rw [hg] at hlen
            simp only at hlen
            simp only [List.length_cons]
            omega

theorem scrapeGo_pages_bound (env : ScrapeEnv) (sd ed : Nat) :
    ∀ fuel page q, q ∈ (scrapeGo env sd ed fuel page).2 →
      page ≤ q ∧ q < page + fuel := by
  intro fuel
  induction fuel with
  | zero => intro page q hq; simp [scrapeGo] at hq
  | succ n ih =>
    intro page q hq
    unfold scrapeGo at hq
    split at hq
    · simp at hq; omega
    · simp at hq; omega
    · split at hq
      · simp at hq; omega
      · split at hq
        · simp at hq; omega
        · cases hg : scrapeGo env sd ed n (page + 1) with
          | mk rest pages =>
            rw [hg] at hq
            simp only [List.mem_cons] at hq
            rcases hq with hq | hq
            · omega
            · have := ih (page + 1) q (by rw [hg]; exact hq)
              omega

/-- Every post produced by the per-page topic loop originates from a
listed topic whose (listing-level) creation date parses into the
inclusive range, via a successful detail scrape. -/
theorem processTopics_mem_origin (env : ScrapeEnv) (sd ed : Nat) :
    ∀ ts posts, processTopics env sd ed ts = some posts →
      ∀ p ∈ posts, ∃ t ∈ ts, ∃ ca d tid,
        t.created_at = some ca ∧ parseDate (pyTake 10 ca) = some d ∧
        sd ≤ d ∧ d ≤ ed ∧ t.id = some tid ∧
        scrape_topic_details tid (env.detail tid) = some p := by
  intro ts
  induction ts with
  | nil =>
    intro posts h p hp
    simp only [processTopics, Option.some.injEq] at h
    subst h
    simp at hp
  | cons t rest ih =>
    intro posts h p hp
    unfold processTopics at h
    cases hca : t.created_at with
    | none =>
      simp only [hca] at h
      exact Option.noConfusion h
    | some ca =>
      simp only [hca] at h
      cases hd : parseDate (pyTake 10 ca) with
      | none =>
        simp only [hd] at h
        exact Option.noConfusion h
      | some d =>
        simp only [hd] at h
        by_cases hr : (decide (sd ≤ d) && decide (d ≤ ed)) = true
        · rw [if_pos hr] at h
          rw [Bool.and_eq_true, decide_eq_true_eq, decide_eq_true_eq] at hr
          cases hid : t.id with
          | none =>
            simp only [hid] at h
            exact Option.noConfusion h
          | some tid =>
            simp only [hid] at h
            cases hsd : scrape_topic_details tid (env.detail tid) with
            | some p0 =>
              simp only [hsd] at h
              cases hrest : processTopics env sd ed rest with
              | none => simp only [hrest] at h; cases h
              | some ps =>
                rw [hrest] at h
                simp only [Option.map_some', Option.some.injEq] at h
                subst h
                rcases List.mem_cons.mp hp with hp | hp
                · subst hp
                  exact ⟨t, List.mem_cons_self t rest, ca, d, tid, hca, hd,
                    hr.1, hr.2, hid, hsd⟩
                · obtain ⟨t2, ht2, rest2⟩ := ih ps hrest p hp
                  exact ⟨t2, List.mem_cons_of_mem t ht2, rest2⟩
            | none =>
              simp only [hsd] at h
              obtain ⟨t2, ht2, rest2⟩ := ih posts h p hp
              exact ⟨t2, List.mem_cons_of_mem t ht2, rest2⟩
        · rw [if_neg hr] at h
          obtain ⟨t2, ht2, rest2⟩ := ih posts h p hp
          exact ⟨t2, List.mem_cons_of_mem t ht2, rest2⟩

/-- Every post emitted by the page loop originates, on some fetched page
below the cap, from a listed topic whose creation date parses into the
inclusive range. -/
theorem scrapeGo_mem_origin (env : ScrapeEnv) (sd ed : Nat) :
    ∀ fuel page posts pages, scrapeGo env sd ed fuel page = (some posts, pages) →
      ∀ p ∈ posts, ∃ pg topics, page ≤ pg ∧ pg < page + fuel ∧
        env.listing pg = .body topics ∧
        ∃ t ∈ topics, ∃ ca d tid,
          t.created_at = some ca ∧ parseDate (pyTake 10 ca) = some d ∧
          sd ≤ d ∧ d ≤ ed ∧ t.id = some tid ∧
          scrape_topic_details tid (env.detail tid) = some p := by
  intro fuel
  induction fuel with
  | zero =>
    intro page posts pages h p hp
    simp only [scrapeGo, Prod.mk.injEq, Option.some.injEq] at h
    rw [← h.1] at hp
    simp at hp
  | succ n ih =>
    intro page posts pages h p hp
    unfold scrapeGo at h
    cases hl : env.listing page with
    | httpFail s =>
      simp only [hl, Prod.mk.injEq, Option.some.injEq] at h
      rw [← h.1] at hp
      simp at hp
    | badJson => simp only [hl] at h; simp at h
    | body topics =>
      simp only [hl] at h
      by_cases ht : topics.isEmpty = true
      · rw [if_pos ht] at h
        simp only [Prod.mk.injEq, Option.some.injEq] at h
        rw [← h.1] at hp
        simp at hp
      · rw [if_neg ht] at h
        cases hpt : processTopics env sd ed topics with
        | none => simp only [hpt] at h; simp at h
        | some here =>
          simp only [hpt] at h
          cases hg : scrapeGo env sd ed n (page + 1) with
          | mk rest pages2 =>
            simp only [hg] at h
            cases rest with
            | none => simp at h
            | some rposts =>
              simp only [Option.map_some', Prod.mk.injEq, Option.some.injEq] at h
              rw [← h.1] at hp
              rcases List.mem_append.mp hp with hp | hp
              · obtain ⟨t, hmem, hfacts⟩ :=
                  processTopics_mem_origin env sd ed topics here hpt p hp
                exact ⟨page, topics, Nat.le_refl page, by omega, hl, t, hmem, hfacts⟩
              · obtain ⟨pg, topics2, hle, hlt, hfacts⟩ :=
                  ih (page + 1) rposts pages2 hg p hp
                exact ⟨pg, topics2, by omega, by omega, hfacts⟩

/-- C2: for every environment and start/end date pair,
`scrape_discourse_posts` requests at most 10 listing pages, all numbered
below 10, and every `ScrapedPost` in its result was built from a listed
topic whose creation date (the first 10 characters of its `created_at`,
parsed as `YYYY-MM-DD`) lies in the inclusive range `[start, end]`. -/
theorem C2_scrape_in_range_and_page_cap (env : ScrapeEnv)
    (start_date end_date : String) :
    (scrape_discourse_posts env start_date end_date).pages.length ≤ 10 ∧
    (∀ q ∈ (scrape_discourse_posts env start_date end_date).pages, q < 10) ∧
    ∀ p ∈ (scrape_discourse_posts env start_date end_date).posts,
      ∃ start_dt end_dt, parseDate start_date = some start_dt ∧
        parseDate end_date = some end_dt ∧
        ∃ page topics, page < 10 ∧ env.listing page = .body topics ∧
        ∃ t ∈ topics, ∃ ca d tid,
          t.created_at = some ca ∧ parseDate (pyTake 10 ca) = some d ∧
          start_dt ≤ d ∧ d ≤ end_dt ∧ t.id = some tid ∧
          scrape_topic_details tid (env.detail tid) = some p := by
  cases hsd : parseDate start_date with
  | none =>
    simp only [scrape_discourse_posts, hsd]
    refine ⟨by simp, by simp, ?_⟩
    intro p hp
    simp at hp
  | some start_dt =>
    cases hed : parseDate end_date with
    | none =>
      simp only [scrape_discourse_posts, hsd, hed]
      refine ⟨by simp, by simp, ?_⟩
      intro p hp
      simp at hp
    | some end_dt =>
      cases hg : scrapeGo env start_dt end_dt 10 0 with
      | mk rest pages =>
        have hlen := scrapeGo_pages_length env start_dt end_dt 10 0
        rw [hg] at hlen
        have hbound := scrapeGo_pages_bound env start_dt end_dt 10 0
        simp only [hg] at hbound
        cases rest with
        | none =>
          simp only [scrape_discourse_posts, hsd, hed, hg]
          refine ⟨by simpa using hlen, ?_, ?_⟩
          · intro q hq
            have := hbound q (by simpa using hq)
            omega
          · intro p hp
            simp at hp
        | some posts =>
          simp only [scrape_discourse_posts, hsd, hed, hg]
          refine ⟨by simpa using hlen, ?_, ?_⟩
          · intro q hq
            have := hbound q (by simpa using hq)
            omega
          · intro p hp
            obtain ⟨pg, topics, hle, hlt, hrest⟩ :=
              scrapeGo_mem_origin env start_dt end_dt 10 0 posts pages hg p
                (by simpa using hp)
            exact ⟨start_dt, end_dt, rfl, rfl, pg, topics, by omega, hrest⟩

theorem C2_scrape_in_range_and_page_cap_witness :
    c2Post ∈ (scrape_discourse_posts c2Env "2025-01-01" "2025-12-31").posts ∧
    ∃ start_dt end_dt, parseDate "2025-01-01" = some start_dt ∧
      parseDate "2025-12-31" = some end_dt ∧
      ∃ page topics, page < 10 ∧ c2Env.listing page = .body topics ∧
      ∃ t ∈ topics, ∃ ca d tid,
        t.created_at = some ca ∧ parseDate (pyTake 10 ca) = some d ∧
        start_dt ≤ d ∧ d ≤ end_dt ∧ t.id = some tid ∧
        scrape_topic_details tid (c2Env.detail tid) = some c2Post :=
  ⟨by decide, (C2_scrape_in_range_and_page_cap c2Env "2025-01-01" "2025-12-31").2.2
    c2Post (by decide)⟩

/-- C3 counterexample: on a listing whose first topic has a malformed
`created_at` and whose second topic is well-formed and in range, the
scrape does not skip just the malformed item — the parse error escapes to
the outer handler and the whole scrape returns no posts, although the
same environment without the malformed topic yields the second topic's
post. -/
theorem C3_counterexample :
    (scrape_discourse_posts c3Env "2025-01-01" "2025-12-31").posts = [] ∧
    (scrape_discourse_posts c3EnvGoodOnly "2025-01-01" "2025-12-31").posts =
      [c3GoodPost] ∧
    scrape_topic_details 2 (c3Env.detail 2) = some c3GoodPost := by
  refine ⟨by decide, by decide, by decide⟩

/-- C3 (amended): a failing topic-detail fetch (non-200 status, malformed
JSON, or empty post stream — `scrape_topic_details` returning `None`)
causes only that topic to be skipped, the loop continuing with the
remaining topics; but a parse failure on a listing topic's `created_at`
aborts the entire scrape (the exception escapes to the outer handler,
which returns `[]`). -/
theorem C3_detail_failure_skips_item (env : ScrapeEnv) (sd ed : Nat)
    (t : TopicSummary) (ts : List TopicSummary) (ca : String) :
    (∀ d tid, t.created_at = some ca → parseDate (pyTake 10 ca) = some d →
      sd ≤ d → d ≤ ed → t.id = some tid →
      scrape_topic_details tid (env.detail tid) = none →
      processTopics env sd ed (t :: ts) = processTopics env sd ed ts) ∧
    (t.created_at = some ca → parseDate (pyTake 10 ca) = none →
      processTopics env sd ed (t :: ts) = none) := by
  constructor
  · intro d tid hca hd h1 h2 hid hdet
    simp only [processTopics, hca, hd]
    rw [if_pos (by simp [h1, h2])]
    simp only [hid, hdet]
  · intro hca hd
    simp only [processTopics, hca, hd]

theorem C3_detail_failure_skips_item_witness :
    (scrape_topic_details 2 (c3FailDetailEnv.detail 2) = none ∧
      processTopics c3FailDetailEnv 20250101 20251231 [c3GoodTopic] =
        processTopics c3FailDetailEnv 20250101 20251231 []) ∧
    (parseDate (pyTake 10 "not-a-date-at-all") = none ∧
      processTopics c3FailDetailEnv 20250101 20251231 [c3BadTopic] = none) :=
  ⟨⟨by decide, (C3_detail_failure_skips_item c3FailDetailEnv 20250101 20251231
      c3GoodTopic [] "2025-02-02T00:00:00.000Z").1 20250202 2 (by decide)
      (by decide) (by decide) (by decide) (by decide) (by decide)⟩,
   ⟨by decide, (C3_detail_failure_skips_item c3FailDetailEnv 20250101 20251231
      c3BadTopic [] "not-a-date-at-all").2 (by decide) (by decide)⟩⟩

/-- C8 counterexample: the claim's example output is wrong — cleaning
`<p>Use <code>print()</code> now</p>` yields `"Use  now"` (the two
spaces that surrounded the removed element survive, and only the ends
are stripped), not `"Use now"`. -/
theorem C8_counterexample :
    clean_html "<p>Use <code>print()</code> now</p>" = "Use  now" ∧
    clean_html "<p>Use <code>print()</code> now</p>" ≠ "Use now" := by
  constructor <;> decide

/-- C8 (amended): decomposing `code`/`pre`/`blockquote` elements before
text extraction means the cleaned output excludes those elements' text
entirely — extraction after removal coincides with an extraction that
never looks inside such elements, and a decomposed element contributes
nothing to the output; the concrete example yields `"Use  now"` (with
both spaces that surrounded the removed element), not `"Use now"`. -/
theorem C8_bad_elements_excluded :
    (∀ ns : HForest, getTextF (removeBadF ["code", "pre", "blockquote"] ns) =
      getTextSkipF ["code", "pre", "blockquote"] ns) ∧
    (∀ tag cs ns, (["code", "pre", "blockquote"].contains tag) = true →
      getTextF (removeBadF ["code", "pre", "blockquote"] (.elemC tag cs ns)) =
        getTextF (removeBadF ["code", "pre", "blockquote"] ns)) ∧
    clean_html "<p>Use <code>print()</code> now</p>" = "Use  now" := by
  have key : ∀ (bad : List String) (ns : HForest),
      getTextF (removeBadF bad ns) = getTextSkipF bad ns := by
    intro bad ns
    induction ns with
    | nil => rfl
    | textC s rest ih => simp [removeBadF, getTextF, getTextSkipF, ih]
    | elemC tag cs rest ihc ihr =>
      by_cases h : tag ∈ bad
      · simp [removeBadF, getTextSkipF, h, ihr]
      · simp [removeBadF, getTextF, getTextSkipF, h, ihc, ihr]
  refine ⟨key _, ?_, by decide⟩
  intro tag cs ns h
  have h2 : tag ∈ ["code", "pre", "blockquote"] := by simpa using h
  simp [removeBadF, h2]

theorem C8_bad_elements_excluded_witness :
    (["code", "pre", "blockquote"].contains "code") = true ∧
    getTextF (removeBadF ["code", "pre", "blockquote"]
        (.elemC "code" (.textC "print()" .nil) (.textC " now" .nil))) =
      getTextF (removeBadF ["code", "pre", "blockquote"] (.textC " now" .nil)) :=
  ⟨by decide, C8_bad_elements_excluded.2.1 "code" (.textC "print()" .nil)
    (.textC " now" .nil) (by decide)⟩
